import Mathlib

set_option maxRecDepth 4000

/-!
Verification development for the layered procedural compositor
`procedural_mock_image` of `src/app.py` (Generative Studio).

Embedding conventions:

* Python integers are `Nat`/`Int`.  Python float expressions to which the
  source applies `int(...)` are modelled exactly over the rationals, and the
  truncation as `Nat` division (every value involved is nonnegative, so
  Python `int` truncation is the floor): `int(0.05*w) = w / 20`,
  `int(0.95*w) = w * 19 / 20`, `int(0.06*m) = m * 3 / 50`,
  `int(0.22*m) = m * 11 / 50`, `int(r*0.1) = r / 10`, `int(r*0.2) = r / 5`,
  `int((1-t)*a + t*b)` with `t = i/h` is `((h-i)*a + i*b) / h`.
* The process-global pseudo-random generators of the `random` and
  `numpy.random` modules are modelled by the abstract deterministic
  generator `Rng`: `random.seed(s)` yields the state `⟨s, 0⟩`, and every
  draw (`randint`, `choice`, `uniform`) consumes one step of the stream.
  The claims settled here depend only on seeded determinism, on the
  consumption order, and on the range of each draw, never on the concrete
  Mersenne-Twister values, so a concrete mixing function stands in for it.
  `random.seed()` with no argument takes operating-system entropy, modelled
  by the `entropy` field of `Globals`.
* PIL raster primitives are embedded at the granularity the claims need:
  the background stage (`Image.new` plus the row-by-row `draw.line` loop,
  where each line spans the full row) is a concrete pixel grid, while each
  blob layer records exactly the parameters the source hands to
  `ImageDraw.ellipse`, `GaussianBlur` and `Image.alpha_composite`, all of
  which are deterministic pure functions of those parameters, so equality
  of the recorded parameters gives pixel-identical composites.
  `Image.new` with a negative size raises `ValueError`, modelled as
  `PilError.sizeNegative`; `Image.alpha_composite` demands operand images
  of equal size, modelled as `PilError.sizeMismatch`.
* The font lookup (`ImageFont.truetype` with its `try/except` fallback)
  and `draw.textsize` depend only on the ambient environment; they are
  fields of `Env`.
-/

/-- An opaque-free RGB triple as stored in the PALETTES table of the source. -/
structure RGB where
  r : Nat
  g : Nat
  b : Nat
  deriving DecidableEq, Repr

/-- An RGBA pixel value. -/
structure RGBA where
  r : Nat
  g : Nat
  b : Nat
  a : Nat
  deriving DecidableEq, Repr

/-- Abstract deterministic pseudo-random generator state standing in for the
seeded global Mersenne Twister of the Python random module: a seed value and
the number of draws consumed so far. -/
structure Rng where
  seedVal : Nat
  idx : Nat
  deriving DecidableEq, Repr

/-- Concrete mixing function producing the value of one draw; any concrete
deterministic function of (seed, index) is a faithful stand-in at the
abstraction level the claims use. -/
def mixStep (s i : Nat) : Nat :=
  (s * 2654435761 + i * 1103515245 + 12345) % 4294967296

/-- Consume one draw from the stream. -/
def Rng.next (g : Rng) : Nat × Rng :=
  (mixStep g.seedVal g.idx, ⟨g.seedVal, g.idx + 1⟩)

/-- Model of random.randint(a, b): a uniformly drawn integer with
a ≤ result ≤ b (the source only calls it with a ≤ b). -/
def randint (a b : Nat) (g : Rng) : Nat × Rng :=
  (a + g.next.1 % (b - a + 1), g.next.2)

/-- The pastel palette of the source's PALETTES dict. -/
def pastelColors : List RGB :=
  [⟨255,179,186⟩, ⟨255,223,186⟩, ⟨255,255,186⟩, ⟨186,255,201⟩, ⟨186,225,255⟩]

/-- The neon palette of the source's PALETTES dict. -/
def neonColors : List RGB :=
  [⟨255,0,102⟩, ⟨0,204,255⟩, ⟨255,204,0⟩, ⟨153,0,255⟩, ⟨0,255,153⟩]

/-- The muted palette of the source's PALETTES dict. -/
def mutedColors : List RGB :=
  [⟨150,120,120⟩, ⟨120,140,130⟩, ⟨130,120,160⟩, ⟨180,170,160⟩]

/-- The warm palette of the source's PALETTES dict. -/
def warmColors : List RGB :=
  [⟨255,179,102⟩, ⟨255,120,60⟩, ⟨220,80,40⟩, ⟨180,40,20⟩]

/-- The cool palette of the source's PALETTES dict. -/
def coolColors : List RGB :=
  [⟨80,160,200⟩, ⟨50,100,150⟩, ⟨30,60,100⟩, ⟨20,40,70⟩]

/-- The monochrome palette of the source's PALETTES dict. -/
def monochromeColors : List RGB :=
  [⟨30,30,40⟩, ⟨70,70,90⟩, ⟨110,110,130⟩, ⟨160,160,180⟩]

/-- The PALETTES dict of the source as an association list. -/
def PALETTES : List (String × List RGB) :=
  [("pastel", pastelColors), ("neon", neonColors), ("muted", mutedColors),
   ("warm", warmColors), ("cool", coolColors), ("monochrome", monochromeColors)]

/-- Model of PALETTES.get(palette, PALETTES["pastel"]): table lookup with
silent fallback to the pastel palette. -/
def paletteColors (name : String) : List RGB :=
  (PALETTES.lookup name).getD pastelColors

/-- The white RGBA pixel used by Image.new in the source. -/
def white : RGBA := ⟨255, 255, 255, 255⟩

/-- One channel of the background gradient row color:
int((1 - i/h)*a + (i/h)*b) computed exactly, which for 0 ≤ i < h is
((h-i)*a + i*b) / h with Nat division. -/
def mixChannel (hn i a b : Nat) : Nat :=
  ((hn - i) * a + i * b) / hn

/-- The RGBA fill color the source passes to draw.line for row i of the
background gradient. -/
def gradColor (colors : List RGB) (hn i : Nat) : RGBA :=
  ⟨mixChannel hn i (colors.headD ⟨0,0,0⟩).r (colors.getLastD ⟨0,0,0⟩).r,
   mixChannel hn i (colors.headD ⟨0,0,0⟩).g (colors.getLastD ⟨0,0,0⟩).g,
   mixChannel hn i (colors.headD ⟨0,0,0⟩).b (colors.getLastD ⟨0,0,0⟩).b,
   255⟩

/-- The background stage of the source: a white w × h RGBA canvas onto which
the loop draws, for every i in range(h), the horizontal line from (0, i) to
(w, i) in the gradient row color (the line covers every pixel of row i). -/
def backgroundCanvas (wn hn : Nat) (colors : List RGB) : List (List RGBA) :=
  (List.range hn).foldl
    (fun cv i => cv.set i (List.replicate wn (gradColor colors hn i)))
    (List.replicate hn (List.replicate wn white))

/-- Pixel access on a canvas: row i, column x. -/
def getPixel (cv : List (List RGBA)) (i x : Nat) : Option RGBA :=
  (cv.get? i).bind fun row => row.get? x

/-- Model of Python range(start, stop, -step) for positive step: the
descending list start, start-step, ... of values strictly above stop. -/
def downRangeAux : Nat → Nat → Nat → Nat → List Nat
  | 0, _, _, _ => []
  | fuel + 1, start, stop, step =>
    if stop < start ∧ 0 < step then
      start :: downRangeAux fuel (start - step) stop step
    else []

/-- The fuel start + 1 always suffices, because each iteration decreases
the start by at least one while it stays above the stop value. -/
def downRange (start stop step : Nat) : List Nat :=
  downRangeAux (start + 1) start stop step

/-- The concentric ellipse stack of one blob of the source: for rr in
range(r, int(r*0.2), -int(r*0.1) if r > 10 else -1), an ellipse of radius
rr filled with the blob color at alpha int(alpha * (rr/(r+1))).  The pair
records (rr, fill); the bounding box is [rx-rr, ry-rr, rx+rr, ry+rr]. -/
def blobEllipses (color : RGB) (alpha r : Nat) : List (Nat × RGBA) :=
  (downRange r (r / 5) (if 10 < r then r / 10 else 1)).map
    fun rr => (rr, ⟨color.r, color.g, color.b, alpha * rr / (r + 1)⟩)

/-- One blob layer of the source: its random parameters, the size of the
RGBA layer image it is drawn on (Image.new((w, h))), the recorded ellipse
stack, and the raw draw for the Gaussian blur radius random.uniform(6,18). -/
structure BlobLayer where
  rx : Nat
  ry : Nat
  r : Nat
  color : RGB
  alpha : Nat
  width : Nat
  height : Nat
  ellipses : List (Nat × RGBA)
  blurDraw : Nat
  deriving DecidableEq, Repr

/-- The Gaussian blur radius of a layer: the value of random.uniform(6, 18)
modelled as 6 + 12 * fraction with fraction in [0, 1). -/
def blurRadius (L : BlobLayer) : ℚ :=
  6 + 12 * ((L.blurDraw % 4294967296 : Nat) : ℚ) / 4294967296

/-- One iteration of the blob loop of the source, consuming six draws in the
source's order: rx, ry, r, random.choice(colors), alpha, blur radius. -/
def drawBlob (colors : List RGB) (wn hn : Nat) (g : Rng) : BlobLayer × Rng :=
  let s1 := randint (wn / 20) (wn * 19 / 20) g
  let s2 := randint (hn / 20) (hn * 19 / 20) s1.2
  let s3 := randint (min wn hn * 3 / 50) (min wn hn * 11 / 50) s2.2
  let s4 := s3.2.next
  let s5 := randint 120 220 s4.2
  let s6 := s5.2.next
  ({ rx := s1.1, ry := s2.1, r := s3.1,
     color := colors.getD (s4.1 % colors.length) ⟨0,0,0⟩,
     alpha := s5.1, width := wn, height := hn,
     ellipses := blobEllipses (colors.getD (s4.1 % colors.length) ⟨0,0,0⟩) s5.1 s3.1,
     blurDraw := s6.1 }, s6.2)

/-- The blob loop of the source: n sequential iterations threading the
random stream, collecting the layers in composition order. -/
def drawBlobs (colors : List RGB) (wn hn : Nat) : Nat → Rng → List BlobLayer × Rng
  | 0, g => ([], g)
  | n + 1, g =>
    let s := drawBlob colors wn hn g
    let rest := drawBlobs colors wn hn n s.2
    (s.1 :: rest.1, rest.2)

/-- The full shape stage: n_blobs = random.randint(6, 18) followed by the
blob loop. -/
def blobsOf (colors : List RGB) (wn hn : Nat) (g0 : Rng) : List BlobLayer × Rng :=
  drawBlobs colors wn hn (randint 6 18 g0).1 (randint 6 18 g0).2

/-- Ambient environment of one call: whether ImageFont.truetype finds
DejaVuSans.ttf (the try/except falls back to load_default), and the
text measurement draw.textsize provides for a given text and font. -/
structure Env where
  fontAvailable : Bool
  textsizeFn : String → Bool → Nat × Nat

/-- The arguments of procedural_mock_image.  A Python seed of None behaves
exactly like 0 (both are falsy), so the seed is an Int. -/
structure Params where
  promptText : String
  w : Int
  h : Int
  seed : Int
  palette : String
  deriving DecidableEq, Repr

/-- Process-global state touched by the call: the random module generator,
the numpy.random generator, and the operating-system entropy that
random.seed() with no argument reads. -/
structure Globals where
  py : Rng
  npGen : Rng
  entropy : Nat
  deriving DecidableEq, Repr

/-- State of the random module generator right after the seeding step of the
source: random.seed(seed) for seed > 0, else random.seed() from entropy. -/
def initRng (p : Params) (gs : Globals) : Rng :=
  if 0 < p.seed then ⟨p.seed.toNat, 0⟩ else ⟨gs.entropy, 0⟩

/-- State of the numpy.random generator right after the seeding step
(np.random.seed(seed) or np.random.seed()); it is never drawn from. -/
def initNpRng (p : Params) (gs : Globals) : Rng :=
  if 0 < p.seed then ⟨p.seed.toNat, 0⟩ else ⟨gs.entropy + 1, 0⟩

/-- The text annotation stage of the source: the prompt truncated at 120
characters, the font actually obtained, the measured text size, and the
coordinates of the backing rectangle and of the text. -/
structure TextOverlay where
  text : String
  usedTruetype : Bool
  txtW : Nat
  txtH : Nat
  rectX0 : Int
  rectY0 : Int
  rectX1 : Int
  rectY1 : Int
  textX : Int
  textY : Int
  deriving DecidableEq, Repr

/-- Build the text annotation of the source for prompt text and image
height h: rectangle [(10, h-10-txt_h-10), (10+txt_w+12, h-10)], text at
(16, h-10-txt_h-6). -/
def labelFor (env : Env) (promptText : String) (hIm : Int) : TextOverlay :=
  let text := if promptText.length > 120 then promptText.take 120 ++ "..." else promptText
  let ts := env.textsizeFn text env.fontAvailable
  { text := text,
    usedTruetype := env.fontAvailable,
    txtW := ts.1,
    txtH := ts.2,
    rectX0 := 10,
    rectY0 := hIm - 10 - (ts.2 : Int) - 10,
    rectX1 := 10 + (ts.1 : Int) + 12,
    rectY1 := hIm - 10,
    textX := 16,
    textY := hIm - 10 - (ts.2 : Int) - 6 }

/-- Failures of the underlying imaging library: Image.new raises ValueError
on a negative size; Image.alpha_composite raises ValueError when its two
operands differ in size.  The source itself performs no validation and
defines no error of its own. -/
inductive PilError where
  | sizeNegative
  | sizeMismatch
  deriving DecidableEq, Repr

/-- The returned image of one call, as the structured trace that determines
every pixel: requested size, the concrete background canvas, the blob
layers in composition order, and the text annotation.  The final
img.convert to RGB is a pixel-determined operation on this data. -/
structure RenderImage where
  width : Int
  height : Int
  background : List (List RGBA)
  layers : List BlobLayer
  label : TextOverlay
  deriving DecidableEq, Repr

/-- The body of procedural_mock_image after the seeding step, threading the
already-seeded stream g0: Image.new (failing on a negative size), the
background gradient, n_blobs and the blob loop, the size check of every
Image.alpha_composite, and the text annotation. -/
def renderCore (env : Env) (promptText : String) (w h : Int) (colors : List RGB)
    (g0 : Rng) : Except PilError RenderImage × Rng :=
  if w < 0 ∨ h < 0 then (.error .sizeNegative, g0)
  else if (blobsOf colors w.toNat h.toNat g0).1.all
      (fun L => L.width == w.toNat && L.height == h.toNat) then
    (.ok { width := w, height := h,
           background := backgroundCanvas w.toNat h.toNat colors,
           layers := (blobsOf colors w.toNat h.toNat g0).1,
           label := labelFor env promptText h },
     (blobsOf colors w.toNat h.toNat g0).2)
  else (.error .sizeMismatch, (blobsOf colors w.toNat h.toNat g0).2)

/-- Model of procedural_mock_image of src/app.py: seed the global
generators (a mutation of Globals), then run the rendering body on the
seeded stream.  The first component is the returned image or the library
error; the second is the global state after the call. -/
def procedural_mock_image (env : Env) (p : Params) (gs : Globals) :
    Except PilError RenderImage × Globals :=
  ((renderCore env p.promptText p.w p.h (paletteColors p.palette) (initRng p gs)).1,
   { py := (renderCore env p.promptText p.w p.h (paletteColors p.palette) (initRng p gs)).2,
     npGen := initNpRng p gs,
     entropy := gs.entropy })

/-- Default image used only to project concrete render results in closed
statements. -/
def dfltImg : RenderImage :=
  { width := 0, height := 0, background := [], layers := [],
    label := { text := "", usedTruetype := false, txtW := 0, txtH := 0,
               rectX0 := 0, rectY0 := 0, rectX1 := 0, rectY1 := 0,
               textX := 0, textY := 0 } }

/-- Modelled from the spec: the background-only render that the spec says a
zero-shape invocation returns, namely the image whose pixels are exactly
the two-color gradient for the given palette and size, with no shape
layers composited. -/
def backgroundOnlyImage (env : Env) (p : Params) : RenderImage :=
  { width := p.w, height := p.h,
    background := backgroundCanvas p.w.toNat p.h.toNat (paletteColors p.palette),
    layers := [],
    label := labelFor env p.promptText p.h }

/-- Modelled from the spec: the row color formula as claim C6 states it,
the per-channel mix (1 - i/h) * first + (i/h) * last taken to an integer
(Python int truncation, the floor of the nonnegative exact value). -/
def specRowMix (hn i a b : Nat) : Nat :=
  Nat.floor ((1 - (i : ℚ) / hn) * a + ((i : ℚ) / hn) * b)

/-- Concrete environment used by witnesses and counterexamples. -/
def env0 : Env := { fontAvailable := true, textsizeFn := fun _ _ => (96, 20) }

/-- Concrete pre-call global state used by witnesses and counterexamples. -/
def gs0 : Globals := { py := ⟨0, 0⟩, npGen := ⟨0, 0⟩, entropy := 0 }

/-- Concrete parameters: seeded call, used for the determinism claim. -/
def pC1 : Params := ⟨"two invocations, identical parameters", 12, 12, 5, "warm"⟩

/-- A second, different pre-call global state for the determinism claim. -/
def gsC1b : Globals := ⟨⟨123, 4⟩, ⟨5, 6⟩, 789⟩

/-- Concrete parameters for the background-only claim. -/
def pC2 : Params := ⟨"background only", 12, 12, 5, "warm"⟩

/-- The image returned at pC2. -/
def imgC2 : RenderImage := (procedural_mock_image env0 pC2 gs0).1.toOption.getD dfltImg

/-- Concrete parameters with zero width for the dimension claim. -/
def pC3 : Params := ⟨"zero width", 0, 5, 1, "cool"⟩

/-- Concrete parameters for the ellipse-stack claim. -/
def pC5 : Params := ⟨"stack", 60, 60, 9, "neon"⟩

/-- The image returned at pC5. -/
def imgC5 : RenderImage := (procedural_mock_image env0 pC5 gs0).1.toOption.getD dfltImg

/-- Concrete parameters for the global-state claim. -/
def pC7 : Params := ⟨"fx", 10, 10, 5, "muted"⟩

/-- A second pre-call global state for the global-state claim. -/
def gsC7b : Globals := ⟨⟨77, 1⟩, ⟨88, 2⟩, 99⟩

/-- Concrete parameters with seed 0 for the dimensions claim. -/
def pC8 : Params := ⟨"dims", 3, 2, 0, "monochrome"⟩

/-- First concrete parameter set for the shape-count claim. -/
def pC10a : Params := ⟨"a", 12, 12, 7, "pastel"⟩

/-- Second concrete parameter set, same seed, different everything else. -/
def pC10b : Params := ⟨"bbb", 30, 20, 7, "neon"⟩

/-- A different pre-call global state for the second shape-count call. -/
def gsC10 : Globals := ⟨⟨3, 3⟩, ⟨4, 4⟩, 11⟩

/-- The image returned at pC10a. -/
def imgC10a : RenderImage := (procedural_mock_image env0 pC10a gs0).1.toOption.getD dfltImg

/-- The image returned at pC10b. -/
def imgC10b : RenderImage := (procedural_mock_image env0 pC10b gsC10).1.toOption.getD dfltImg

/-- Lower bound of randint: the result is at least a. -/
lemma randint_low (a b : Nat) (g : Rng) : a ≤ (randint a b g).1 :=
  Nat.le_add_right a _

/-- Upper bound of randint: for a ≤ b the result is at most b. -/
lemma randint_high (a b : Nat) (g : Rng) (hab : a ≤ b) : (randint a b g).1 ≤ b := by
  unfold randint
  have h1 : g.next.1 % (b - a + 1) < b - a + 1 := Nat.mod_lt _ (Nat.succ_pos _)
  have h2 : g.next.1 % (b - a + 1) ≤ b - a := Nat.lt_succ_iff.mp h1
  calc a + g.next.1 % (b - a + 1) ≤ a + (b - a) := Nat.add_le_add_left h2 a
    _ = b := Nat.add_sub_cancel' hab

/-- Every element of the fuelled iteration lies strictly above the stop
value and at most at the start value. -/
lemma downRangeAux_bounds (t k : Nat) :
    ∀ (fuel s : Nat), ∀ e ∈ downRangeAux fuel s t k, t < e ∧ e ≤ s := by
  intro fuel
  induction fuel with
  | zero => intro s e he; cases he
  | succ f ih =>
    intro s e he
    simp only [downRangeAux] at he
    split at he
    · rename_i hc
      rcases List.mem_cons.mp he with h1 | h2
      · subst h1; exact ⟨hc.1, Nat.le_refl _⟩
      · obtain ⟨hb1, hb2⟩ := ih _ e h2
        exact ⟨hb1, Nat.le_trans hb2 (Nat.sub_le _ _)⟩
    · cases he

/-- Every element of downRange lies strictly above the stop value and at most
at the start value. -/
lemma downRange_bounds (t k : Nat) : ∀ s, ∀ e ∈ downRange s t k, t < e ∧ e ≤ s := by
  intro s e he
  exact downRangeAux_bounds t k (s + 1) s e he

/-- The elements of the fuelled iteration are strictly decreasing. -/
lemma downRangeAux_chain (t k : Nat) :
    ∀ (fuel s : Nat), List.Chain' (fun x y => y < x) (downRangeAux fuel s t k) := by
  intro fuel
  induction fuel with
  | zero => intro s; exact List.chain'_nil
  | succ f ih =>
    intro s
    simp only [downRangeAux]
    split
    · rename_i hc
      refine List.chain'_cons'.mpr ⟨?_, ih _⟩
      intro y hy
      have hmem : y ∈ downRangeAux f (s - k) t k := List.mem_of_mem_head? hy
      have hle := (downRangeAux_bounds t k f (s - k) y hmem).2
      exact Nat.lt_of_le_of_lt hle (Nat.sub_lt (Nat.lt_of_le_of_lt (Nat.zero_le _) hc.1) hc.2)
    · exact List.chain'_nil

/-- The elements of downRange are strictly decreasing. -/
lemma downRange_chain (t k : Nat) : ∀ s, List.Chain' (fun x y => y < x) (downRange s t k) := by
  intro s
  exact downRangeAux_chain t k (s + 1) s

/-- Every recorded ellipse of a blob has a radius in the loop range, is
filled with the blob color, and carries the scaled-down alpha, which never
exceeds the chosen alpha. -/
lemma blobEllipses_mem (color : RGB) (alpha r : Nat) :
    ∀ e ∈ blobEllipses color alpha r,
      r / 5 < e.1 ∧ e.1 ≤ r ∧
      e.2 = ⟨color.r, color.g, color.b, alpha * e.1 / (r + 1)⟩ ∧ e.2.a ≤ alpha := by
  intro e he
  unfold blobEllipses at he
  rcases List.mem_map.mp he with ⟨rr, hrr, rfl⟩
  obtain ⟨h1, h2⟩ := downRange_bounds (r / 5) _ r rr hrr
  refine ⟨h1, h2, rfl, ?_⟩
  calc alpha * rr / (r + 1)
      ≤ alpha * (r + 1) / (r + 1) :=
        Nat.div_le_div_right (Nat.mul_le_mul_left _ (Nat.le_trans h2 (Nat.le_succ _)))
    _ = alpha := Nat.mul_div_cancel _ (Nat.succ_pos r)

/-- The radii of a blob's ellipse stack are strictly decreasing. -/
lemma blobEllipses_chain (color : RGB) (alpha r : Nat) :
    List.Chain' (fun x y => y < x) ((blobEllipses color alpha r).map Prod.fst) := by
  unfold blobEllipses
  rw [List.map_map]
  have hcomp : (Prod.fst ∘ fun rr =>
      ((rr, (⟨color.r, color.g, color.b, alpha * rr / (r + 1)⟩ : RGBA)) : Nat × RGBA))
      = fun rr => rr := rfl
  rw [hcomp]
  rw [List.map_id']
  exact downRange_chain _ _ _

/-- A blob layer is drawn on a layer image of the canvas size. -/
lemma drawBlob_width (colors : List RGB) (wn hn : Nat) (g : Rng) :
    (drawBlob colors wn hn g).1.width = wn := rfl

/-- A blob layer is drawn on a layer image of the canvas size. -/
lemma drawBlob_height (colors : List RGB) (wn hn : Nat) (g : Rng) :
    (drawBlob colors wn hn g).1.height = hn := rfl

/-- The recorded ellipse stack of a drawn blob is exactly the concentric
stack for its own color, alpha and radius. -/
lemma drawBlob_ellipses (colors : List RGB) (wn hn : Nat) (g : Rng) :
    (drawBlob colors wn hn g).1.ellipses =
      blobEllipses (drawBlob colors wn hn g).1.color
        (drawBlob colors wn hn g).1.alpha (drawBlob colors wn hn g).1.r := by
  simp only [drawBlob]

/-- The chosen alpha of a blob is at least 120 (random.randint(120, 220)). -/
lemma drawBlob_alpha_low (colors : List RGB) (wn hn : Nat) (g : Rng) :
    120 ≤ (drawBlob colors wn hn g).1.alpha :=
  randint_low 120 220 _

/-- The chosen alpha of a blob is at most 220 (random.randint(120, 220)). -/
lemma drawBlob_alpha_high (colors : List RGB) (wn hn : Nat) (g : Rng) :
    (drawBlob colors wn hn g).1.alpha ≤ 220 :=
  randint_high 120 220 _ (by norm_num)

/-- The blur radius of any layer lies in the interval [6, 18) of
random.uniform(6, 18). -/
lemma blurRadius_bounds (L : BlobLayer) : (6:ℚ) ≤ blurRadius L ∧ blurRadius L < 18 := by
  unfold blurRadius
  constructor
  · have h0 : (0:ℚ) ≤ 12 * ((L.blurDraw % 4294967296 : Nat) : ℚ) / 4294967296 := by positivity
    linarith
  · have hm : (L.blurDraw % 4294967296 : Nat) < 4294967296 := Nat.mod_lt _ (by norm_num)
    have hm2 : ((L.blurDraw % 4294967296 : Nat) : ℚ) < 4294967296 := by exact_mod_cast hm
    have h12 : 12 * ((L.blurDraw % 4294967296 : Nat) : ℚ) / 4294967296 < 12 := by
      rw [div_lt_iff₀ (by norm_num)]
      linarith
    linarith

/-- The blob loop produces exactly n layers. -/
lemma drawBlobs_length (colors : List RGB) (wn hn : Nat) :
    ∀ (n : Nat) (g : Rng), (drawBlobs colors wn hn n g).1.length = n := by
  intro n
  induction n with
  | zero => intro g; rfl
  | succ m ih => intro g; simp [drawBlobs, ih]

/-- Every layer produced by the blob loop is the output of one blob
iteration on some stream state. -/
lemma drawBlobs_mem (colors : List RGB) (wn hn : Nat) :
    ∀ (n : Nat) (g : Rng) (L : BlobLayer), L ∈ (drawBlobs colors wn hn n g).1 →
      ∃ g2, L = (drawBlob colors wn hn g2).1 := by
  intro n
  induction n with
  | zero => intro g L h; cases h
  | succ m ih =>
    intro g L h
    simp only [drawBlobs] at h
    rcases List.mem_cons.mp h with h1 | h2
    · exact ⟨g, h1⟩
    · exact ih _ L h2

/-- Every layer of the shape stage comes from one blob iteration. -/
lemma blobsOf_mem (colors : List RGB) (wn hn : Nat) (g0 : Rng) :
    ∀ L ∈ (blobsOf colors wn hn g0).1, ∃ g2, L = (drawBlob colors wn hn g2).1 := by
  intro L h
  exact drawBlobs_mem colors wn hn _ _ L h

/-- The number of layers of the shape stage is the value of
random.randint(6, 18) on the seeded stream. -/
lemma blobsOf_length (colors : List RGB) (wn hn : Nat) (g0 : Rng) :
    (blobsOf colors wn hn g0).1.length = (randint 6 18 g0).1 :=
  drawBlobs_length colors wn hn _ _

/-- Every layer of the shape stage has the canvas size, so every
Image.alpha_composite size check passes. -/
lemma blobsOf_sizes (colors : List RGB) (wn hn : Nat) (g0 : Rng) :
    ((blobsOf colors wn hn g0).1.all fun L => L.width == wn && L.height == hn) = true := by
  rw [List.all_eq_true]
  intro L hL
  obtain ⟨g2, rfl⟩ := blobsOf_mem colors wn hn g0 L hL
  simp [drawBlob_width, drawBlob_height]

/-- Unknown palette names fall back to the pastel palette, exactly as
PALETTES.get(palette, PALETTES["pastel"]) does. -/
lemma paletteColors_unknown (name : String)
    (h : name ∉ ["pastel", "neon", "muted", "warm", "cool", "monochrome"]) :
    paletteColors name = pastelColors := by
  simp only [List.mem_cons, List.not_mem_nil, or_false, not_or] at h
  obtain ⟨h1, h2, h3, h4, h5, h6⟩ := h
  have e1 : (name == "pastel") = false := beq_eq_false_iff_ne.mpr h1
  have e2 : (name == "neon") = false := beq_eq_false_iff_ne.mpr h2
  have e3 : (name == "muted") = false := beq_eq_false_iff_ne.mpr h3
  have e4 : (name == "warm") = false := beq_eq_false_iff_ne.mpr h4
  have e5 : (name == "cool") = false := beq_eq_false_iff_ne.mpr h5
  have e6 : (name == "monochrome") = false := beq_eq_false_iff_ne.mpr h6
  simp [paletteColors, PALETTES, List.lookup, e1, e2, e3, e4, e5, e6]

/-- On nonnegative dimensions the call returns the image assembled from the
background canvas, the shape stage and the text annotation. -/
lemma render_ok_of_nonneg {env : Env} {p : Params} {gs : Globals}
    (hw : 0 ≤ p.w) (hh : 0 ≤ p.h) :
    (procedural_mock_image env p gs).1 =
      .ok { width := p.w, height := p.h,
            background := backgroundCanvas p.w.toNat p.h.toNat (paletteColors p.palette),
            layers := (blobsOf (paletteColors p.palette) p.w.toNat p.h.toNat (initRng p gs)).1,
            label := labelFor env p.promptText p.h } := by
  have hd : ¬ (p.w < 0 ∨ p.h < 0) := by omega
  show (renderCore env p.promptText p.w p.h (paletteColors p.palette) (initRng p gs)).1 = _
  unfold renderCore
  rw [if_neg hd, if_pos (blobsOf_sizes _ _ _ _)]

/-- On a negative dimension the call surfaces the library ValueError of
Image.new. -/
lemma render_error_of_neg {env : Env} {p : Params} {gs : Globals}
    (hd : p.w < 0 ∨ p.h < 0) :
    (procedural_mock_image env p gs).1 = .error .sizeNegative := by
  show (renderCore env p.promptText p.w p.h (paletteColors p.palette) (initRng p gs)).1 = _
  unfold renderCore
  rw [if_pos hd]

/-- Inversion: a successfully returned image is exactly the assembled one. -/
lemma render_ok_fields {env : Env} {p : Params} {gs : Globals} {img : RenderImage}
    (h : (procedural_mock_image env p gs).1 = .ok img) :
    img = { width := p.w, height := p.h,
            background := backgroundCanvas p.w.toNat p.h.toNat (paletteColors p.palette),
            layers := (blobsOf (paletteColors p.palette) p.w.toNat p.h.toNat (initRng p gs)).1,
            label := labelFor env p.promptText p.h } := by
  by_cases hd : p.w < 0 ∨ p.h < 0
  · rw [render_error_of_neg hd] at h
    exact Except.noConfusion h
  · have hw : 0 ≤ p.w := by omega
    have hh : 0 ≤ p.h := by omega
    rw [render_ok_of_nonneg hw hh] at h
    exact (Except.ok.inj h).symm

/-- The global state after the call: the random module generator holds the
stream state left by the rendering body, and numpy.random holds its
reseeded state. -/
lemma render_globals (env : Env) (p : Params) (gs : Globals) :
    (procedural_mock_image env p gs).2 =
      { py := (renderCore env p.promptText p.w p.h (paletteColors p.palette) (initRng p gs)).2,
        npGen := initNpRng p gs, entropy := gs.entropy } := rfl

/-- Reading back the updated index of List.set. -/
lemma get?_set_self' {α : Type} (x : α) :
    ∀ (l : List α) (i : Nat), i < l.length → (l.set i x).get? i = some x := by
  intro l
  induction l with
  | nil => intro i h; exact absurd h (Nat.not_lt_zero i)
  | cons a t ih =>
    intro i h
    cases i with
    | zero => rfl
    | succ j => exact ih j (Nat.lt_of_succ_lt_succ h)

/-- Reading any other index of List.set. -/
lemma get?_set_ne' {α : Type} (x : α) :
    ∀ (l : List α) (i j : Nat), i ≠ j → (l.set i x).get? j = l.get? j := by
  intro l
  induction l with
  | nil => intro i j _; rfl
  | cons a t ih =>
    intro i j hne
    cases i with
    | zero =>
      cases j with
      | zero => exact absurd rfl hne
      | succ k => rfl
    | succ m =>
      cases j with
      | zero => rfl
      | succ k => exact ih m k (fun he => hne (by rw [he]))

/-- Reading an index of List.replicate. -/
lemma get?_replicate' {α : Type} (x : α) :
    ∀ (n i : Nat), i < n → (List.replicate n x).get? i = some x := by
  intro n
  induction n with
  | zero => intro i h; exact absurd h (Nat.not_lt_zero i)
  | succ m ih =>
    intro i h
    cases i with
    | zero => rfl
    | succ j => exact ih j (Nat.lt_of_succ_lt_succ h)

/-- Folding row updates preserves the number of rows. -/
lemma foldl_set_length {α : Type} (f : Nat → α) :
    ∀ (l : List Nat) (cv : List α),
      (l.foldl (fun c j => c.set j (f j)) cv).length = cv.length := by
  intro l
  induction l with
  | nil => intro cv; rfl
  | cons a t ih =>
    intro cv
    rw [List.foldl_cons, ih, List.length_set]

/-- Rows not named by the index list keep their original content. -/
lemma foldl_set_get?_not_mem {α : Type} (f : Nat → α) :
    ∀ (l : List Nat) (cv : List α) (i : Nat), i ∉ l →
      (l.foldl (fun c j => c.set j (f j)) cv).get? i = cv.get? i := by
  intro l
  induction l with
  | nil => intro cv i _; rfl
  | cons a t ih =>
    intro cv i hi
    rw [List.foldl_cons, ih _ i (fun hmem => hi (List.mem_cons_of_mem a hmem)),
      get?_set_ne' _ _ _ _ (fun he => hi (by rw [← he]; exact List.mem_cons_self a t))]

/-- A row named exactly once by the index list ends up holding its update. -/
lemma foldl_set_get?_mem {α : Type} (f : Nat → α) :
    ∀ (l : List Nat) (cv : List α) (i : Nat), l.Nodup → i ∈ l → i < cv.length →
      (l.foldl (fun c j => c.set j (f j)) cv).get? i = some (f i) := by
  intro l
  induction l with
  | nil => intro cv i _ h _; exact absurd h (List.not_mem_nil i)
  | cons a t ih =>
    intro cv i hnd hmem hlen
    rw [List.foldl_cons]
    rcases List.mem_cons.mp hmem with rfl | hmemT
    · have hat : i ∉ t := (List.nodup_cons.mp hnd).1
      rw [foldl_set_get?_not_mem f t _ i hat, get?_set_self' _ _ _ hlen]
    · exact ih _ i (List.nodup_cons.mp hnd).2 hmemT (by rw [List.length_set]; exact hlen)

/-- Row i of the background canvas is the full-width line drawn in the
gradient row color, for every i below the height: each loop iteration
overwrites exactly its own row and no later iteration touches it again. -/
lemma backgroundCanvas_row (wn hn : Nat) (colors : List RGB) {i : Nat} (hi : i < hn) :
    (backgroundCanvas wn hn colors).get? i =
      some (List.replicate wn (gradColor colors hn i)) := by
  unfold backgroundCanvas
  exact foldl_set_get?_mem (fun j => List.replicate wn (gradColor colors hn j))
    (List.range hn) _ i (List.nodup_range hn) (List.mem_range.mpr hi)
    (by rw [List.length_replicate]; exact hi)

/-- The integer-division channel mix of the source equals the floor of the
exact linear interpolation formula of the spec. -/
lemma mixChannel_eq_specRowMix {hn i : Nat} (hi : i < hn) (a b : Nat) :
    mixChannel hn i a b = specRowMix hn i a b := by
  have hpos : (0:ℚ) < (hn : ℚ) := by exact_mod_cast Nat.pos_of_ne_zero (by omega)
  have hne : ((hn : ℕ) : ℚ) ≠ 0 := ne_of_gt hpos
  have key : (1 - (i : ℚ) / hn) * a + ((i : ℚ) / hn) * b
      = (((hn - i) * a + i * b : ℕ) : ℚ) / ((hn : ℕ) : ℚ) := by
    push_cast [Nat.cast_sub (Nat.le_of_lt hi)]
    field_simp
  unfold specRowMix
  rw [key, Nat.floor_div_nat, Nat.floor_natCast]
  rfl

/-- C1: for every width, height, palette name, prompt text and seed with
seed > 0, two invocations of procedural_mock_image with identical
parameters produce pixel-identical output images: the call seeds the
generator from the seed before any draw, so the returned image does not
depend on the pre-call global state. -/
theorem seeded_render_deterministic :
    ∀ (env : Env) (p : Params) (gs1 gs2 : Globals), 0 < p.seed →
      (procedural_mock_image env p gs1).1 = (procedural_mock_image env p gs2).1 := by
  intro env p gs1 gs2 h
  simp [procedural_mock_image, initRng, h]

/-- Witness for C1 at concrete parameters (seed 5) and two different
pre-call global states. -/
theorem seeded_render_deterministic_witness :
    0 < pC1.seed ∧
      (procedural_mock_image env0 pC1 gs0).1 = (procedural_mock_image env0 pC1 gsC1b).1 :=
  ⟨by decide, seeded_render_deterministic env0 pC1 gs0 gsC1b (by decide)⟩

/-- C2 counterexample: the compositor has no shape-count argument and never
returns the background-only render: at concrete parameters the returned
image carries composited blob layers, so it differs from the image whose
pixels are only the gradient background. -/
theorem always_draws_blobs_cex :
    (procedural_mock_image env0 pC2 gs0).1 = .ok imgC2 ∧
      imgC2 ≠ backgroundOnlyImage env0 pC2 :=
  ⟨rfl, by decide⟩

/-- C2 amended: every successful invocation composites at least one blob
layer (the count is random.randint(6, 18), never 0), hence never yields a
background-only image. -/
theorem render_layers_nonempty :
    ∀ env p gs img, (procedural_mock_image env p gs).1 = .ok img → img.layers ≠ [] := by
  intro env p gs img h
  have hf := render_ok_fields h
  simp only [hf]
  intro hnil
  have hlen := blobsOf_length (paletteColors p.palette) p.w.toNat p.h.toNat (initRng p gs)
  have h6 := randint_low 6 18 (initRng p gs)
  rw [hnil] at hlen
  simp at hlen
  omega

/-- Witness for the amended C2 at concrete parameters. -/
theorem render_layers_nonempty_witness :
    (procedural_mock_image env0 pC2 gs0).1 = .ok imgC2 ∧ imgC2.layers ≠ [] :=
  ⟨rfl, render_layers_nonempty env0 pC2 gs0 imgC2 rfl⟩

/-- C3 counterexample: a zero-width invocation does not fail at all, let
alone with an InvalidDimension error: the source performs no dimension
validation, and the call returns a degenerate 0 × 5 image. -/
theorem zero_width_succeeds_cex :
    pC3.w ≤ 0 ∧ (procedural_mock_image env0 pC3 gs0).1.toOption.isSome = true ∧
      ((procedural_mock_image env0 pC3 gs0).1.toOption.getD dfltImg).width = 0 :=
  ⟨by decide, rfl, rfl⟩

/-- C3 amended: the source has no InvalidDimension error.  A call returns
an image exactly when both dimensions are nonnegative (zero is accepted and
produces a degenerate image of the requested size); a negative dimension
surfaces as the underlying imaging library's ValueError from Image.new. -/
theorem render_ok_iff_nonneg_dims :
    ∀ (env : Env) (p : Params) (gs : Globals),
      (∃ img, (procedural_mock_image env p gs).1 = .ok img) ↔ 0 ≤ p.w ∧ 0 ≤ p.h := by
  intro env p gs
  constructor
  · rintro ⟨img, h⟩
    by_contra hc
    have hd : p.w < 0 ∨ p.h < 0 := by omega
    rw [render_error_of_neg hd] at h
    exact Except.noConfusion h
  · rintro ⟨hw, hh⟩
    exact ⟨_, render_ok_of_nonneg hw hh⟩

/-- C4 counterexample: the compositor takes a palette name, and the closest
expressible empty palette, the empty name, does not fail with an
InvalidPalette error: the call succeeds and is identical to the call with
the pastel palette name. -/
theorem empty_palette_name_falls_back_cex :
    (procedural_mock_image env0 ⟨"p", 6, 6, 2, ""⟩ gs0).1.toOption.isSome = true ∧
      procedural_mock_image env0 ⟨"p", 6, 6, 2, ""⟩ gs0 =
        procedural_mock_image env0 ⟨"p", 6, 6, 2, "pastel"⟩ gs0 :=
  ⟨rfl, rfl⟩

/-- C4 amended: there is no InvalidPalette error; the palette argument is a
name, and the empty name (like every unknown name) silently falls back to
the pastel palette, producing exactly the pastel output. -/
theorem empty_palette_name_uses_pastel :
    ∀ (env : Env) (gs : Globals) (prompt : String) (w h seed : Int),
      procedural_mock_image env ⟨prompt, w, h, seed, ""⟩ gs =
        procedural_mock_image env ⟨prompt, w, h, seed, "pastel"⟩ gs := by
  intro env gs prompt w h seed
  have hcol : paletteColors ("") = paletteColors ("pastel") := rfl
  simp [procedural_mock_image, initRng, initNpRng, hcol]

/-- C5 counterexample: at concrete parameters every composited shape is a
stack of concentric ellipses whose fill alphas are all strictly scaled
down from the chosen alpha; no drawn element is a polygon filled at the
chosen alpha, refuting the perturbed-polygon description. -/
theorem blob_alpha_scaled_cex :
    (procedural_mock_image env0 pC5 gs0).1 = .ok imgC5 ∧
      imgC5.layers ≠ [] ∧
      (imgC5.layers.all fun L =>
        !L.ellipses.isEmpty && L.ellipses.all fun e => e.2.a != L.alpha) = true :=
  ⟨rfl, by decide, by decide⟩

section

attribute [local irreducible] blobEllipses drawBlob downRange downRangeAux

/-- C5 amended: each shape the compositor draws is a stack of concentric
ellipses around the shape center with radii strictly decreasing from the
base radius r down to just above r/5, each filled with the shape color at
the scaled alpha int(alpha * rr/(r+1)) which never exceeds the chosen
alpha; the chosen alpha lies in [120, 220], and the layer is Gaussian
blurred with a random radius in [6, 18), then alpha-composited. -/
theorem blob_layers_are_ellipse_stacks :
    ∀ env p gs img, (procedural_mock_image env p gs).1 = .ok img →
      ∀ L ∈ img.layers,
        (∀ e ∈ L.ellipses,
            L.r / 5 < e.1 ∧ e.1 ≤ L.r ∧
            e.2 = ⟨L.color.r, L.color.g, L.color.b, L.alpha * e.1 / (L.r + 1)⟩ ∧
            e.2.a ≤ L.alpha) ∧
        List.Chain' (fun x y => y < x) (L.ellipses.map Prod.fst) ∧
        120 ≤ L.alpha ∧ L.alpha ≤ 220 ∧
        (6:ℚ) ≤ blurRadius L ∧ blurRadius L < 18 := by
  intro env p gs img h L hL
  have hf := render_ok_fields h
  simp only [hf] at hL
  obtain ⟨g2, rfl⟩ := blobsOf_mem _ _ _ _ L hL
  refine ⟨?_, ?_, drawBlob_alpha_low _ _ _ _, drawBlob_alpha_high _ _ _ _,
    (blurRadius_bounds _).1, (blurRadius_bounds _).2⟩
  · rw [drawBlob_ellipses]
    exact blobEllipses_mem _ _ _
  · rw [drawBlob_ellipses]
    exact blobEllipses_chain _ _ _

end

/-- Witness for the amended C5 at concrete parameters. -/
theorem blob_layers_are_ellipse_stacks_witness :
    (procedural_mock_image env0 pC5 gs0).1 = .ok imgC5 ∧
      ∀ L ∈ imgC5.layers,
        (∀ e ∈ L.ellipses,
            L.r / 5 < e.1 ∧ e.1 ≤ L.r ∧
            e.2 = ⟨L.color.r, L.color.g, L.color.b, L.alpha * e.1 / (L.r + 1)⟩ ∧
            e.2.a ≤ L.alpha) ∧
        List.Chain' (fun x y => y < x) (L.ellipses.map Prod.fst) ∧
        120 ≤ L.alpha ∧ L.alpha ≤ 220 ∧
        (6:ℚ) ≤ blurRadius L ∧ blurRadius L < 18 :=
  ⟨rfl, blob_layers_are_ellipse_stacks env0 pC5 gs0 imgC5 rfl⟩

/-- C6: before any shapes are drawn, every pixel of row i of the
background canvas (for i below the height and x below the width) is the
per-channel linear interpolation (1 - i/h) * first + (i/h) * last between
the first and last color of the selected palette, truncated to an integer
(the floor, as Python int does on these nonnegative values), at full
opacity. -/
theorem background_gradient_rows :
    ∀ (wn hn : Nat) (colors : List RGB) (i x : Nat), i < hn → x < wn →
      getPixel (backgroundCanvas wn hn colors) i x =
        some ⟨specRowMix hn i (colors.headD ⟨0,0,0⟩).r (colors.getLastD ⟨0,0,0⟩).r,
              specRowMix hn i (colors.headD ⟨0,0,0⟩).g (colors.getLastD ⟨0,0,0⟩).g,
              specRowMix hn i (colors.headD ⟨0,0,0⟩).b (colors.getLastD ⟨0,0,0⟩).b,
              255⟩ := by
  intro wn hn colors i x hi hx
  unfold getPixel
  rw [backgroundCanvas_row wn hn colors hi]
  show (List.replicate wn (gradColor colors hn i)).get? x = _
  rw [get?_replicate' _ wn x hx]
  unfold gradColor
  simp only [mixChannel_eq_specRowMix hi]

/-- Witness for C6 on a concrete 4 × 4 canvas with the pastel palette. -/
theorem background_gradient_rows_witness :
    1 < 4 ∧ 2 < 4 ∧
      getPixel (backgroundCanvas 4 4 pastelColors) 1 2 =
        some ⟨specRowMix 4 1 (pastelColors.headD ⟨0,0,0⟩).r (pastelColors.getLastD ⟨0,0,0⟩).r,
              specRowMix 4 1 (pastelColors.headD ⟨0,0,0⟩).g (pastelColors.getLastD ⟨0,0,0⟩).g,
              specRowMix 4 1 (pastelColors.headD ⟨0,0,0⟩).b (pastelColors.getLastD ⟨0,0,0⟩).b,
              255⟩ :=
  ⟨by decide, by decide, background_gradient_rows 4 4 pastelColors 1 2 (by decide) (by decide)⟩

/-- C7 counterexample: the call is not free of side effects on outside
state: at concrete parameters the global random-generator state after the
call differs from the state before it (the call reseeds and consumes the
process-global generators). -/
theorem render_mutates_globals_cex :
    (procedural_mock_image env0 pC7 gs0).2 ≠ gs0 := by decide

/-- C7 amended: the call performs no I/O, but it does mutate the
process-global random generators: for seed > 0 it reseeds them, so the
post-call generator states are fully determined by the call and
independent of the pre-call states. -/
theorem render_reseeds_global_rng :
    ∀ (env : Env) (p : Params) (gs1 gs2 : Globals), 0 < p.seed →
      (procedural_mock_image env p gs1).2.py = (procedural_mock_image env p gs2).2.py ∧
      (procedural_mock_image env p gs1).2.npGen = (procedural_mock_image env p gs2).2.npGen := by
  intro env p gs1 gs2 h
  constructor <;> simp [procedural_mock_image, initRng, initNpRng, h]

/-- Witness for the amended C7 at concrete parameters. -/
theorem render_reseeds_global_rng_witness :
    0 < pC7.seed ∧
      ((procedural_mock_image env0 pC7 gs0).2.py =
          (procedural_mock_image env0 pC7 gsC7b).2.py ∧
        (procedural_mock_image env0 pC7 gs0).2.npGen =
          (procedural_mock_image env0 pC7 gsC7b).2.npGen) :=
  ⟨by decide, render_reseeds_global_rng env0 pC7 gs0 gsC7b (by decide)⟩

/-- C8: for every invocation with positive dimensions (any seed, including
seed 0), the returned image's dimensions exactly equal the requested
width and height, regardless of the shapes drawn. -/
theorem render_dims_match_request :
    ∀ (env : Env) (p : Params) (gs : Globals), 0 < p.w → 0 < p.h →
      ∃ img, (procedural_mock_image env p gs).1 = .ok img ∧
        img.width = p.w ∧ img.height = p.h := by
  intro env p gs hw hh
  exact ⟨_, render_ok_of_nonneg (le_of_lt hw) (le_of_lt hh), rfl, rfl⟩

/-- Witness for C8 at concrete parameters with seed 0. -/
theorem render_dims_match_request_witness :
    0 < pC8.w ∧ 0 < pC8.h ∧
      ∃ img, (procedural_mock_image env0 pC8 gs0).1 = .ok img ∧
        img.width = pC8.w ∧ img.height = pC8.h :=
  ⟨by decide, by decide, render_dims_match_request env0 pC8 gs0 (by decide) (by decide)⟩

/-- C9: a palette name outside the six named sets never fails; the call
produces exactly the output of the same call with the pastel palette name,
all other inputs and the pre-call random state identical. -/
theorem unknown_palette_same_as_pastel :
    ∀ (env : Env) (gs : Globals) (prompt : String) (w h seed : Int) (name : String),
      name ∉ ["pastel", "neon", "muted", "warm", "cool", "monochrome"] →
      procedural_mock_image env ⟨prompt, w, h, seed, name⟩ gs =
        procedural_mock_image env ⟨prompt, w, h, seed, "pastel"⟩ gs := by
  intro env gs prompt w h seed name hname
  have hcol : paletteColors name = paletteColors ("pastel") := by
    rw [paletteColors_unknown name hname]
    rfl
  simp [procedural_mock_image, initRng, initNpRng, hcol]

/-- Witness for C9 with a concrete unknown palette name. -/
theorem unknown_palette_same_as_pastel_witness :
    ("vaporwave" : String) ∉ ["pastel", "neon", "muted", "warm", "cool", "monochrome"] ∧
      procedural_mock_image env0 ⟨"q", 8, 8, 3, "vaporwave"⟩ gs0 =
        procedural_mock_image env0 ⟨"q", 8, 8, 3, "pastel"⟩ gs0 :=
  ⟨by decide, unknown_palette_same_as_pastel env0 gs0 ("q") 8 8 3 ("vaporwave") (by decide)⟩

/-- C10: the number of composited shape layers of every successful call is
random.randint(6, 18), so it lies between 6 and 18 inclusive, and no
parameter of the function controls it: two calls with the same positive
seed have the same layer count whatever their other parameters or
pre-call states. -/
theorem blob_count_range_param_independent :
    ∀ (env1 env2 : Env) (p1 p2 : Params) (gs1 gs2 : Globals) (img1 img2 : RenderImage),
      (procedural_mock_image env1 p1 gs1).1 = .ok img1 →
      (procedural_mock_image env2 p2 gs2).1 = .ok img2 →
      (6 ≤ img1.layers.length ∧ img1.layers.length ≤ 18) ∧
      (p1.seed = p2.seed → 0 < p1.seed → img1.layers.length = img2.layers.length) := by
  intro env1 env2 p1 p2 gs1 gs2 img1 img2 h1 h2
  have hf1 := render_ok_fields h1
  have hf2 := render_ok_fields h2
  have hl1 : img1.layers.length = (randint 6 18 (initRng p1 gs1)).1 := by
    simp only [hf1]; exact blobsOf_length _ _ _ _
  have hl2 : img2.layers.length = (randint 6 18 (initRng p2 gs2)).1 := by
    simp only [hf2]; exact blobsOf_length _ _ _ _
  constructor
  · rw [hl1]
    exact ⟨randint_low _ _ _, randint_high _ _ _ (by norm_num)⟩
  · intro hseed hpos
    have hpos2 : 0 < p2.seed := hseed ▸ hpos
    have hinit : initRng p1 gs1 = initRng p2 gs2 := by
      unfold initRng
      rw [if_pos hpos, if_pos hpos2, hseed]
    rw [hl1, hl2, hinit]

/-- Witness for C10: two concrete successful calls with the same seed and
otherwise different parameters and pre-call states. -/
theorem blob_count_range_param_independent_witness :
    (procedural_mock_image env0 pC10a gs0).1 = .ok imgC10a ∧
      (procedural_mock_image env0 pC10b gsC10).1 = .ok imgC10b ∧
      ((6 ≤ imgC10a.layers.length ∧ imgC10a.layers.length ≤ 18) ∧
        (pC10a.seed = pC10b.seed → 0 < pC10a.seed →
          imgC10a.layers.length = imgC10b.layers.length)) :=
  ⟨rfl, rfl,
    blob_count_range_param_independent env0 env0 pC10a pC10b gs0 gsC10 imgC10a imgC10b rfl rfl⟩
